import Mathlib

/-!
Shallow embedding of the mochi MCP worker (akornfarm/demo-repo).
-/

/-- JavaScript runtime values as far as this program manipulates them.
The `undefined` constructor models JavaScript undefined (a missing object property),
distinct from JSON `null`.  Numbers are modelled as integers: every
number the program compares, branches on or serializes in the claims
is integral. -/
inductive JsVal where
  | undefined
  | null
  | bool (b : Bool)
  | num (n : Int)
  | str (s : String)
  | arr (xs : List JsVal)
  | obj (fields : List (String × JsVal))

def hexDigitL (n : Nat) : Char :=
  if n < 10 then Char.ofNat (48 + n) else Char.ofNat (87 + n)

/-- JSON string escaping as performed by JSON.stringify. -/
def jsonEscapeChar (c : Char) : String :=
  if c = '"' then "\\\""
  else if c = '\\' then "\\\\"
  else if c = '\n' then "\\n"
  else if c = '\r' then "\\r"
  else if c = '\t' then "\\t"
  else if c = '\x08' then "\\b"
  else if c = '\x0c' then "\\f"
  else if c.toNat < 32 then
    "\\u00" ++ String.singleton (hexDigitL (c.toNat / 16)) ++ String.singleton (hexDigitL (c.toNat % 16))
  else String.singleton c

def jsonQuote (s : String) : String :=
  "\"" ++ String.join (s.toList.map jsonEscapeChar) ++ "\""

mutual

/-- JSON.stringify on a value: `none` models the JavaScript call
returning `undefined` (only for an `undefined` input here; the program
never serializes functions or symbols). -/
def jsonStringifyVal : JsVal → Option String
  | .undefined => none
  | .null => some "null"
  | .bool true => some "true"
  | .bool false => some "false"
  | .num n => some (toString n)
  | .str s => some (jsonQuote s)
  | .arr xs => some ("[" ++ jsonArrBody xs ++ "]")
  | .obj fs => some ("\x7b" ++ jsonObjBody fs ++ "\x7d")

/-- Array elements: JSON.stringify renders `undefined` elements as `null`. -/
def jsonArrBody : List JsVal → String
  | [] => ""
  | [v] => jsonElem v
  | v :: vs => jsonElem v ++ "," ++ jsonArrBody vs

def jsonElem : JsVal → String
  | .undefined => "null"
  | .null => "null"
  | .bool true => "true"
  | .bool false => "false"
  | .num n => toString n
  | .str s => jsonQuote s
  | .arr xs => "[" ++ jsonArrBody xs ++ "]"
  | .obj fs => "\x7b" ++ jsonObjBody fs ++ "\x7d"

/-- Object fields: JSON.stringify drops properties whose value is `undefined`. -/
def jsonObjBody : List (String × JsVal) → String
  | [] => ""
  | (k, v) :: fs =>
    match jsonStringifyVal v with
    | none => jsonObjBody fs
    | some s => jsonQuote k ++ ":" ++ s ++ jsonObjRest fs

def jsonObjRest : List (String × JsVal) → String
  | [] => ""
  | (k, v) :: fs =>
    match jsonStringifyVal v with
    | none => jsonObjRest fs
    | some s => "," ++ jsonQuote k ++ ":" ++ s ++ jsonObjRest fs

end

/-- JSON.stringify at the program's call sites, which always receive an
object literal (so the `undefined` outcome never occurs there). -/
def jsonStringify (v : JsVal) : String :=
  (jsonStringifyVal v).getD "undefined"

mutual

/-- JavaScript string coercion (template-literal interpolation, `String(x)`).
Arrays stringify by joining their elements with commas, rendering nested
`null`/`undefined` elements as empty strings; plain objects stringify to
`[object Object]`. -/
def jsToString : JsVal → String
  | .undefined => "undefined"
  | .null => "null"
  | .bool true => "true"
  | .bool false => "false"
  | .num n => toString n
  | .str s => s
  | .arr xs => jsArrToString xs
  | .obj _ => "[object Object]"

def jsArrToString : List JsVal → String
  | [] => ""
  | [v] => jsArrElemToString v
  | v :: vs => jsArrElemToString v ++ "," ++ jsArrToString vs

def jsArrElemToString : JsVal → String
  | .undefined => ""
  | .null => ""
  | .bool true => "true"
  | .bool false => "false"
  | .num n => toString n
  | .str s => s
  | .arr xs => jsArrToString xs
  | .obj _ => "[object Object]"

end

/-- Property access `v[key]` on the program's argument bags.  A missing
property reads as `undefined`; so does access on a non-object (the
program only reads properties off objects it destructured, except in
corner cases no claim exercises; JavaScript would throw on `null`/
`undefined` receivers, which the dispatcher models explicitly where it
matters). -/
def objLookup : List (String × JsVal) → String → JsVal
  | [], _ => .undefined
  | (k, v) :: fs, key => if k = key then v else objLookup fs key

def getField : JsVal → String → JsVal
  | .obj fs, key => objLookup fs key
  | _, _ => .undefined

/-- JavaScript truthiness. -/
def truthy : JsVal → Bool
  | .undefined => false
  | .null => false
  | .bool b => b
  | .num n => n != 0
  | .str s => s != ""
  | .arr _ => true
  | .obj _ => true

/-- `typeof v === "string"`. -/
def JsVal.isStr : JsVal → Bool
  | .str _ => true
  | .undefined => false
  | .null => false
  | .bool _ => false
  | .num _ => false
  | .arr _ => false
  | .obj _ => false

/-- `typeof v === "number"`. -/
def JsVal.isNum : JsVal → Bool
  | .num _ => true
  | .undefined => false
  | .null => false
  | .bool _ => false
  | .str _ => false
  | .arr _ => false
  | .obj _ => false

/-- `Array.isArray(v)`. -/
def JsVal.isArr : JsVal → Bool
  | .arr _ => true
  | .undefined => false
  | .null => false
  | .bool _ => false
  | .num _ => false
  | .str _ => false
  | .obj _ => false

/-- `v === undefined`. -/
def JsVal.isUndefined : JsVal → Bool
  | .undefined => true
  | .null => false
  | .bool _ => false
  | .num _ => false
  | .str _ => false
  | .arr _ => false
  | .obj _ => false

/-- Nullish coalescing `v ?? fallback`. -/
def nullishOr (v fallback : JsVal) : JsVal :=
  match v with
  | .undefined => fallback
  | .null => fallback
  | .bool b => .bool b
  | .num n => .num n
  | .str s => .str s
  | .arr xs => .arr xs
  | .obj fs => .obj fs

/-- Strict equality `v === "lit"` between a value and a string literal,
as used by the program's `switch` statements. -/
def jsEqStr (v : JsVal) (lit : String) : Bool :=
  match v with
  | .str s => s == lit
  | .undefined => false
  | .null => false
  | .bool _ => false
  | .num _ => false
  | .arr _ => false
  | .obj _ => false

def hexDigitU (n : Nat) : Char :=
  if n < 10 then Char.ofNat (48 + n) else Char.ofNat (55 + n)

/-- UTF-8 bytes of a code point. -/
def utf8Bytes (n : Nat) : List Nat :=
  if n < 128 then [n]
  else if n < 2048 then [192 + n / 64, 128 + n % 64]
  else if n < 65536 then [224 + n / 4096, 128 + n / 64 % 64, 128 + n % 64]
  else [240 + n / 262144, 128 + n / 4096 % 64, 128 + n / 64 % 64, 128 + n % 64]

/-- Percent-encoding of one character under the
application/x-www-form-urlencoded serializer used by
`URLSearchParams.toString()`: ASCII alphanumerics and `*-._` pass
through, space becomes `+`, everything else is percent-encoded. -/
def formEncodeChar (c : Char) : String :=
  if c.isAlphanum || c = '*' || c = '-' || c = '.' || c = '_' then String.singleton c
  else if c = ' ' then "+"
  else String.join ((utf8Bytes c.toNat).map fun b =>
    "%" ++ String.singleton (hexDigitU (b / 16)) ++ String.singleton (hexDigitU (b % 16)))

def formEncodeStr (s : String) : String :=
  String.join (s.toList.map formEncodeChar)

/-- `URLSearchParams.toString()` over the parameters in insertion order
(the program only ever `set`s distinct keys). -/
def formEncodeParams (ps : List (String × String)) : String :=
  String.intercalate "&" (ps.map fun kv => formEncodeStr kv.1 ++ "=" ++ formEncodeStr kv.2)

def base64Digit (n : Nat) : Char :=
  "ABCDEFGHIJKLMNOPQRSTUVWXYZabcdefghijklmnopqrstuvwxyz0123456789+/".toList.getD n 'A'

def btoaBytes : List Nat → String
  | [] => ""
  | [a] =>
    String.mk [base64Digit (a / 4), base64Digit (a % 4 * 16)] ++ "=="
  | [a, b] =>
    String.mk [base64Digit (a / 4), base64Digit (a % 4 * 16 + b / 16), base64Digit (b % 16 * 4)] ++ "="
  | a :: b :: c :: rest =>
    String.mk [base64Digit (a / 4), base64Digit (a % 4 * 16 + b / 16),
      base64Digit (b % 16 * 4 + c / 64), base64Digit (c % 64)] ++ btoaBytes rest

/-- The `btoa` base64 encoder over a Latin-1 string (the program applies
it to an ASCII credential). -/
def btoa (s : String) : String :=
  btoaBytes (s.toList.map Char.toNat)

/-- The worker environment: `some key` when the `MOCHI_API_KEY` binding
is configured, `none` when it is absent (the property reads as
`undefined`). -/
abbrev WorkerEnv := Option String

/-- Interpolating `env.MOCHI_API_KEY` into a template literal. -/
def envKeyStr : WorkerEnv → String
  | none => "undefined"
  | some k => k

/-- One outbound HTTP request to the upstream Mochi API, as assembled by
`mochiFetch`: full URL, HTTP method, the two headers `mochiFetch` sets,
and the optional serialized body. -/
structure UpstreamRequest where
  url : String
  method : String
  authorization : String
  contentType : String
  body : Option String
deriving DecidableEq

/-- Body of the worker's HTTP response: `Response.json(v)` keeps the
value (the platform serializes it); plain-text responses carry a
string. -/
inductive RespBody where
  | json (v : JsVal)
  | text (s : String)

/-- The worker's HTTP response: status plus body.  (CORS headers, where
the source sets them, are not modelled; no claim mentions them.) -/
structure HttpResponse where
  status : Nat
  body : RespBody

/-- `return { result: await handler(...) }`: a resolved handler value is
wrapped in a `result` object; a rejection propagates. -/
def wrapResult (r : Except String JsVal × List UpstreamRequest) :
    Except String JsVal × List UpstreamRequest :=
  (match r.1 with
   | .ok v => .ok (.obj [("result", v)])
   | .error e => .error e, r.2)

/-- The entry point's try/catch around `handleInvocation`, combined
with `Response.json`: a resolved value is sent as `{success:true,
data}` with the default status 200, a thrown error (its `.message`) as
`{success:false, error}` with status 400.  This part is textually
identical in both worker files. -/
def respond (r : Except String JsVal × List UpstreamRequest) :
    HttpResponse × List UpstreamRequest :=
  match r.1 with
  | .ok data =>
    ({ status := 200, body := .json (.obj [("success", .bool true), ("data", data)]) }, r.2)
  | .error msg =>
    ({ status := 400, body := .json (.obj [("success", .bool false), ("error", .str msg)]) }, r.2)

/-- Engine-generated TypeError when `callTool` destructures a
`params` field that is `undefined` or `null` (message approximated; the
exact wording is host-engine specific and no claim depends on it). -/
def destructureParamsMsg : String :=
  "Cannot destructure property name of payload.params as it is undefined or null."

/-- The static tool registry.  The three source files carry textually
identical copies of this `tools` array; it is written once here and
reused by each embedded variant. -/
def toolsJson : JsVal := .arr [
  .obj [("name", .str "list_decks"),
    ("description", .str "Fetch the list of decks available to the authenticated Mochi user."),
    ("schema", .obj [("type", .str "object"), ("properties", .obj [])])],
  .obj [("name", .str "list_cards"),
    ("description", .str "Fetch flashcards for a given deck. Supports optional pagination via `page` and `pageSize`."),
    ("schema", .obj [("type", .str "object"),
      ("properties", .obj [
        ("deckId", .obj [("type", .str "string"),
          ("description", .str "Deck identifier as returned by the `list_decks` tool.")]),
        ("page", .obj [("type", .str "number"),
          ("description", .str "Optional page index (1-based).")]),
        ("pageSize", .obj [("type", .str "number"),
          ("description", .str "Optional page size (defaults to 50).")])]),
      ("required", .arr [.str "deckId"])])],
  .obj [("name", .str "create_card"),
    ("description", .str "Create a new note/card inside the specified deck. Provide front/back markdown content and optional tags."),
    ("schema", .obj [("type", .str "object"),
      ("properties", .obj [
        ("deckId", .obj [("type", .str "string"),
          ("description", .str "Deck identifier as returned by the `list_decks` tool.")]),
        ("front", .obj [("type", .str "string"),
          ("description", .str "Front content in Markdown.")]),
        ("back", .obj [("type", .str "string"),
          ("description", .str "Back content in Markdown.")]),
        ("tags", .obj [("type", .str "array"),
          ("items", .obj [("type", .str "string")]),
          ("description", .str "Optional list of tag strings to apply to the new card.")])]),
      ("required", .arr [.str "deckId", .str "front", .str "back"])])],
  .obj [("name", .str "record_review"),
    ("description", .str "Submit the result of a review for a specific card. Supports answering quality scores aligned with Mochi's API."),
    ("schema", .obj [("type", .str "object"),
      ("properties", .obj [
        ("cardId", .obj [("type", .str "string"),
          ("description", .str "Unique identifier of the card being reviewed.")]),
        ("rating", .obj [("type", .str "string"),
          ("enum", .arr [.str "again", .str "hard", .str "good", .str "easy"]),
          ("description", .str "Review rating aligned with Mochi's scheduler.")])]),
      ("required", .arr [.str "cardId", .str "rating"])])]]

/-- The manifest object.  All three source variants build the identical
literal (each ignores its `env` argument). -/
def manifestJson : JsVal :=
  .obj [("name", .str "mochi"),
    ("version", .str "0.1.0"),
    ("description", .str "Remote MCP server backed by the Mochi spaced-repetition API."),
    ("capabilities", .obj [("tools", toolsJson)]),
    ("auth", .obj [("type", .str "bearer"),
      ("instructions", .str "Set the MOCHI_API_KEY secret to a Mochi personal access token.")]),
    ("environment", .obj [("variables", .arr [.str "MOCHI_API_KEY"])])]

example : jsonStringifyVal (.obj [("rating", .str "good")]) = some "\x7b\"rating\":\"good\"\x7d" := rfl

example : jsonStringifyVal (.obj [("front", .undefined), ("back", .str "b"), ("tags", .arr [])]) =
    some "\x7b\"back\":\"b\",\"tags\":[]\x7d" := rfl

example : btoa "key:" = "a2V5Og==" := rfl

example : formEncodeParams [("page", "2")] = "page=2" := rfl

/-!
## src/index.ts — the TypeScript worker (bearer auth, `api.mochi.cards/v1`)

Async effects are made explicit: the platform's global `fetch` is an
oracle parameter `upstream : UpstreamRequest → Nat × String` returning
the upstream response's status and body text, and the platform's
`JSON.parse` is a parameter `parseJson : String → Except String JsVal`
(`.error e` models a thrown SyntaxError with message `e`).  Each
handler returns, besides its `Except` result (a rejection carries the
thrown `Error`'s message), the list of upstream requests it issued, so
that "no upstream call is made" is a provable statement.
-/

namespace IndexTs

def MOCHI_API_BASE : String := "https://api.mochi.cards/v1"

/-- The request `mochiFetch` assembles and hands to `fetch`: base URL
plus path, the caller's method/body, and the two headers it sets. -/
def mochiReq (env : WorkerEnv) (path method : String) (body : Option String) : UpstreamRequest :=
  { url := MOCHI_API_BASE ++ path
    method := method
    authorization := "Bearer " ++ envKeyStr env
    contentType := "application/json"
    body := body }

/-- `mochiFetch`'s handling of the upstream response: non-2xx statuses
throw `Mochi API <status>: <text>`; an empty 2xx body resolves to
`null`; otherwise the body is JSON-parsed, a parse failure throwing
`Failed to parse Mochi API response: <e>`. -/
def mochiFetchHandle (parseJson : String → Except String JsVal) (status : Nat) (text : String) :
    Except String JsVal :=
  if status < 200 ∨ 300 ≤ status then
    .error ("Mochi API " ++ toString status ++ ": " ++ text)
  else if text = "" then
    .ok .null
  else
    match parseJson text with
    | .ok v => .ok v
    | .error e => .error ("Failed to parse Mochi API response: " ++ e)

/-- `mochiFetch(path, init, env)`: issues exactly one upstream request
and handles its response. -/
def mochiFetch (env : WorkerEnv) (upstream : UpstreamRequest → Nat × String)
    (parseJson : String → Except String JsVal) (path method : String) (body : Option String) :
    Except String JsVal × List UpstreamRequest :=
  let req := mochiReq env path method body
  (mochiFetchHandle parseJson (upstream req).1 (upstream req).2, [req])

def listDecks (env : WorkerEnv) (upstream : UpstreamRequest → Nat × String)
    (parseJson : String → Except String JsVal) :
    Except String JsVal × List UpstreamRequest :=
  mochiFetch env upstream parseJson "/decks" "GET" none

def listCards (env : WorkerEnv) (upstream : UpstreamRequest → Nat × String)
    (parseJson : String → Except String JsVal) (args : JsVal) :
    Except String JsVal × List UpstreamRequest :=
  let deckId := getField args "deckId"
  let page := getField args "page"
  let pageSize := getField args "pageSize"
  if !deckId.isStr then
    (.error "list_cards requires a string deckId", [])
  else
    let params :=
      (if page.isNum then [("page", jsToString page)] else []) ++
      (if pageSize.isNum then [("page_size", jsToString pageSize)] else [])
    let query := formEncodeParams params
    let path := if query != "" then "/decks/" ++ jsToString deckId ++ "/cards?" ++ query
                else "/decks/" ++ jsToString deckId ++ "/cards"
    mochiFetch env upstream parseJson path "GET" none

def createCard (env : WorkerEnv) (upstream : UpstreamRequest → Nat × String)
    (parseJson : String → Except String JsVal) (args : JsVal) :
    Except String JsVal × List UpstreamRequest :=
  let deckId := getField args "deckId"
  let front := getField args "front"
  let back := getField args "back"
  let tags := getField args "tags"
  if !deckId.isStr || !front.isStr || !back.isStr then
    (.error "create_card requires deckId, front, and back strings", [])
  else if !tags.isUndefined && !tags.isArr then
    (.error "create_card tags must be an array of strings if provided", [])
  else
    let body := jsonStringify (.obj [("front", front), ("back", back),
      ("tags", if tags.isArr then tags else .arr [])])
    mochiFetch env upstream parseJson ("/decks/" ++ jsToString deckId ++ "/cards") "POST" (some body)

def recordReview (env : WorkerEnv) (upstream : UpstreamRequest → Nat × String)
    (parseJson : String → Except String JsVal) (args : JsVal) :
    Except String JsVal × List UpstreamRequest :=
  let cardId := getField args "cardId"
  let rating := getField args "rating"
  if !cardId.isStr || !rating.isStr then
    (.error "record_review requires cardId and rating strings", [])
  else
    let body := jsonStringify (.obj [("rating", rating)])
    mochiFetch env upstream parseJson ("/cards/" ++ jsToString cardId ++ "/reviews") "POST" (some body)

def manifest (_env : WorkerEnv) : JsVal := manifestJson

def handleInvocation (env : WorkerEnv) (upstream : UpstreamRequest → Nat × String)
    (parseJson : String → Except String JsVal) (payload : JsVal) :
    Except String JsVal × List UpstreamRequest :=
  let m := getField payload "method"
  if jsEqStr m "listTools" then
    (.ok (.obj [("tools", toolsJson)]), [])
  else if jsEqStr m "callTool" then
    match getField payload "params" with
    | .undefined => (.error destructureParamsMsg, [])
    | .null => (.error destructureParamsMsg, [])
    | params =>
      let name := getField params "name"
      let args := match getField params "arguments" with
        | .undefined => JsVal.obj []
        | v => v
      if !truthy name then (.error "Tool invocation missing name", [])
      else if jsEqStr name "list_decks" then wrapResult (listDecks env upstream parseJson)
      else if jsEqStr name "list_cards" then wrapResult (listCards env upstream parseJson args)
      else if jsEqStr name "create_card" then wrapResult (createCard env upstream parseJson args)
      else if jsEqStr name "record_review" then wrapResult (recordReview env upstream parseJson args)
      else (.error ("Unknown tool: " ++ jsToString name), [])
  else
    (.error ("Unsupported method: " ++ jsToString m), [])

/-- The exported `fetch` entry point.  `reqBody` is the result of
`await request.json()` on the inbound request (`.error e` models a
rejected parse with the engine's error text `e`). -/
def fetch (env : WorkerEnv) (upstream : UpstreamRequest → Nat × String)
    (parseJson : String → Except String JsVal) (method pathname : String)
    (reqBody : Except String JsVal) : HttpResponse × List UpstreamRequest :=
  if pathname = "/.well-known/mcp.json" then
    ({ status := 200, body := .json (manifest env) }, [])
  else if method ≠ "POST" then
    ({ status := 404, body := .text "Not Found" }, [])
  else
    match reqBody with
    | .error e => ({ status := 400, body := .text ("Invalid JSON payload: " ++ e) }, [])
    | .ok payload => respond (handleInvocation env upstream parseJson payload)

end IndexTs

/-!
## workers/mochi-mcp-worker.js, first implementation
(bearer auth, `api.mochi.cards/v1`, no argument validation)
-/

namespace WorkerA

def MOCHI_API_BASE : String := "https://api.mochi.cards/v1"

def mochiReq (env : WorkerEnv) (path method : String) (body : Option String) : UpstreamRequest :=
  { url := MOCHI_API_BASE ++ path
    method := method
    authorization := "Bearer " ++ envKeyStr env
    contentType := "application/json"
    body := body }

def mochiFetchHandle (parseJson : String → Except String JsVal) (status : Nat) (text : String) :
    Except String JsVal :=
  if status < 200 ∨ 300 ≤ status then
    .error ("Mochi API " ++ toString status ++ ": " ++ text)
  else if text = "" then
    .ok .null
  else
    match parseJson text with
    | .ok v => .ok v
    | .error e => .error ("Failed to parse Mochi API response: " ++ e)

def mochiFetch (env : WorkerEnv) (upstream : UpstreamRequest → Nat × String)
    (parseJson : String → Except String JsVal) (path method : String) (body : Option String) :
    Except String JsVal × List UpstreamRequest :=
  let req := mochiReq env path method body
  (mochiFetchHandle parseJson (upstream req).1 (upstream req).2, [req])

def listDecks (env : WorkerEnv) (upstream : UpstreamRequest → Nat × String)
    (parseJson : String → Except String JsVal) :
    Except String JsVal × List UpstreamRequest :=
  mochiFetch env upstream parseJson "/decks" "GET" none

/-- No `deckId` validation; `page`/`pageSize` are forwarded whenever
truthy (`if (page)`), regardless of their type. -/
def listCards (env : WorkerEnv) (upstream : UpstreamRequest → Nat × String)
    (parseJson : String → Except String JsVal) (args : JsVal) :
    Except String JsVal × List UpstreamRequest :=
  let deckId := getField args "deckId"
  let page := getField args "page"
  let pageSize := getField args "pageSize"
  let params :=
    (if truthy page then [("page", jsToString page)] else []) ++
    (if truthy pageSize then [("page_size", jsToString pageSize)] else [])
  let query := formEncodeParams params
  let path := if query != "" then "/decks/" ++ jsToString deckId ++ "/cards?" ++ query
              else "/decks/" ++ jsToString deckId ++ "/cards"
  mochiFetch env upstream parseJson path "GET" none

/-- No validation at all: missing `front`/`back` become `undefined`
properties, which `JSON.stringify` drops from the body. -/
def createCard (env : WorkerEnv) (upstream : UpstreamRequest → Nat × String)
    (parseJson : String → Except String JsVal) (args : JsVal) :
    Except String JsVal × List UpstreamRequest :=
  let body := jsonStringify (.obj [("front", getField args "front"),
    ("back", getField args "back"),
    ("tags", nullishOr (getField args "tags") (.arr []))])
  mochiFetch env upstream parseJson
    ("/decks/" ++ jsToString (getField args "deckId") ++ "/cards") "POST" (some body)

def recordReview (env : WorkerEnv) (upstream : UpstreamRequest → Nat × String)
    (parseJson : String → Except String JsVal) (args : JsVal) :
    Except String JsVal × List UpstreamRequest :=
  let body := jsonStringify (.obj [("rating", getField args "rating")])
  mochiFetch env upstream parseJson
    ("/cards/" ++ jsToString (getField args "cardId") ++ "/reviews") "POST" (some body)

def manifest (_env : WorkerEnv) : JsVal := manifestJson

def handleInvocation (env : WorkerEnv) (upstream : UpstreamRequest → Nat × String)
    (parseJson : String → Except String JsVal) (payload : JsVal) :
    Except String JsVal × List UpstreamRequest :=
  let m := getField payload "method"
  if jsEqStr m "listTools" then
    (.ok (.obj [("tools", toolsJson)]), [])
  else if jsEqStr m "callTool" then
    match getField payload "params" with
    | .undefined => (.error destructureParamsMsg, [])
    | .null => (.error destructureParamsMsg, [])
    | params =>
      let name := getField params "name"
      let args := match getField params "arguments" with
        | .undefined => JsVal.obj []
        | v => v
      if !truthy name then (.error "Tool invocation missing name", [])
      else if jsEqStr name "list_decks" then wrapResult (listDecks env upstream parseJson)
      else if jsEqStr name "list_cards" then wrapResult (listCards env upstream parseJson args)
      else if jsEqStr name "create_card" then wrapResult (createCard env upstream parseJson args)
      else if jsEqStr name "record_review" then wrapResult (recordReview env upstream parseJson args)
      else (.error ("Unknown tool: " ++ jsToString name), [])
  else
    (.error ("Unsupported method: " ++ jsToString m), [])

def fetch (env : WorkerEnv) (upstream : UpstreamRequest → Nat × String)
    (parseJson : String → Except String JsVal) (method pathname : String)
    (reqBody : Except String JsVal) : HttpResponse × List UpstreamRequest :=
  if pathname = "/.well-known/mcp.json" then
    ({ status := 200, body := .json (manifest env) }, [])
  else if method ≠ "POST" then
    ({ status := 404, body := .text "Not Found" }, [])
  else
    match reqBody with
    | .error e => ({ status := 400, body := .text ("Invalid JSON payload: " ++ e) }, [])
    | .ok payload => respond (handleInvocation env upstream parseJson payload)

end WorkerA

/-!
## workers/mochi-mcp-worker.js, second implementation
(HTTP Basic auth, `app.mochi.cards/api`, kebab-case upstream field
names, `record_review` unsupported)

Its HTTP entry point additionally handles OPTIONS preflight and CORS
headers; no claim touches that entry point, so only the upstream
client, the tool handlers, the dispatcher and the manifest are
embedded.
-/

namespace WorkerB

def MOCHI_API_BASE : String := "https://app.mochi.cards/api"

/-- HTTP Basic auth: username = API key, password empty
(`btoa` of `"<key>:"`). -/
def mochiReq (env : WorkerEnv) (path method : String) (body : Option String) : UpstreamRequest :=
  { url := MOCHI_API_BASE ++ path
    method := method
    authorization := "Basic " ++ btoa (envKeyStr env ++ ":")
    contentType := "application/json"
    body := body }

def mochiFetchHandle (parseJson : String → Except String JsVal) (status : Nat) (text : String) :
    Except String JsVal :=
  if status < 200 ∨ 300 ≤ status then
    .error ("Mochi API " ++ toString status ++ ": " ++ text)
  else if text = "" then
    .ok .null
  else
    match parseJson text with
    | .ok v => .ok v
    | .error e => .error ("Failed to parse Mochi API response: " ++ e)

def mochiFetch (env : WorkerEnv) (upstream : UpstreamRequest → Nat × String)
    (parseJson : String → Except String JsVal) (path method : String) (body : Option String) :
    Except String JsVal × List UpstreamRequest :=
  let req := mochiReq env path method body
  (mochiFetchHandle parseJson (upstream req).1 (upstream req).2, [req])

def listDecks (env : WorkerEnv) (upstream : UpstreamRequest → Nat × String)
    (parseJson : String → Except String JsVal) :
    Except String JsVal × List UpstreamRequest :=
  mochiFetch env upstream parseJson "/decks" "GET" none

/-- Queries `/cards` with `deck-id`/`limit` parameters when truthy; the
`page` argument is read but ignored (bookmark pagination TODO in the
source). -/
def listCards (env : WorkerEnv) (upstream : UpstreamRequest → Nat × String)
    (parseJson : String → Except String JsVal) (args : JsVal) :
    Except String JsVal × List UpstreamRequest :=
  let deckId := getField args "deckId"
  let pageSize := getField args "pageSize"
  let params :=
    (if truthy deckId then [("deck-id", jsToString deckId)] else []) ++
    (if truthy pageSize then [("limit", jsToString pageSize)] else [])
  let query := formEncodeParams params
  let path := if query != "" then "/cards?" ++ query else "/cards"
  mochiFetch env upstream parseJson path "GET" none

/-- Combines front and back into one `content` field separated by
`\n\n---\n\n`, posting kebab-case fields to `/cards`. -/
def createCard (env : WorkerEnv) (upstream : UpstreamRequest → Nat × String)
    (parseJson : String → Except String JsVal) (args : JsVal) :
    Except String JsVal × List UpstreamRequest :=
  let content := jsToString (getField args "front") ++ "\n\n---\n\n" ++ jsToString (getField args "back")
  let body := jsonStringify (.obj [("content", .str content),
    ("deck-id", getField args "deckId"),
    ("manual-tags", nullishOr (getField args "tags") (.arr []))])
  mochiFetch env upstream parseJson "/cards" "POST" (some body)

/-- Always throws; the public Mochi API has no reviews endpoint. -/
def recordReview (_env : WorkerEnv) (_upstream : UpstreamRequest → Nat × String)
    (_parseJson : String → Except String JsVal) (_args : JsVal) :
    Except String JsVal × List UpstreamRequest :=
  (.error "Review recording is not available in the Mochi API. This feature may require app-level interaction.", [])

def manifest (_env : WorkerEnv) : JsVal := manifestJson

def handleInvocation (env : WorkerEnv) (upstream : UpstreamRequest → Nat × String)
    (parseJson : String → Except String JsVal) (payload : JsVal) :
    Except String JsVal × List UpstreamRequest :=
  let m := getField payload "method"
  if jsEqStr m "listTools" then
    (.ok (.obj [("tools", toolsJson)]), [])
  else if jsEqStr m "callTool" then
    match getField payload "params" with
    | .undefined => (.error destructureParamsMsg, [])
    | .null => (.error destructureParamsMsg, [])
    | params =>
      let name := getField params "name"
      let args := match getField params "arguments" with
        | .undefined => JsVal.obj []
        | v => v
      if !truthy name then (.error "Tool invocation missing name", [])
      else if jsEqStr name "list_decks" then wrapResult (listDecks env upstream parseJson)
      else if jsEqStr name "list_cards" then wrapResult (listCards env upstream parseJson args)
      else if jsEqStr name "create_card" then wrapResult (createCard env upstream parseJson args)
      else if jsEqStr name "record_review" then wrapResult (recordReview env upstream parseJson args)
      else (.error ("Unknown tool: " ++ jsToString name), [])
  else
    (.error ("Unsupported method: " ++ jsToString m), [])

end WorkerB

/-!
## Concrete fixtures used by the claim theorems
-/

/-- An upstream oracle answering 200 with an empty body. -/
def upstream200 : UpstreamRequest → Nat × String := fun _ => (200, "")

/-- A JSON.parse oracle; the claims below never reach a successful
parse, so a failing stub suffices as the concrete instantiation. -/
def parseFail : String → Except String JsVal := fun _ => .error "SyntaxError"

/-- `POST` body `\x7b"method":"callTool","params":\x7b"name":"list_decks"\x7d\x7d`. -/
def listDecksPayload : JsVal :=
  .obj [("method", .str "callTool"), ("params", .obj [("name", .str "list_decks")])]

/-!
## General lemmas about the embedding
-/

theorem strAppendAssoc (a b c : String) : a ++ b ++ c = a ++ (b ++ c) := by
  cases a with
  | mk la =>
    cases b with
    | mk lb =>
      cases c with
      | mk lc =>
        show String.mk (la ++ lb ++ lc) = String.mk (la ++ (lb ++ lc))
        rw [List.append_assoc]

/-- Non-2xx upstream statuses make `mochiFetch` throw the
`Mochi API <status>: <body>` error. -/
theorem indexHandleErr (p : String → Except String JsVal) (status : Nat) (text : String)
    (h : status < 200 ∨ 300 ≤ status) :
    IndexTs.mochiFetchHandle p status text =
      .error ("Mochi API " ++ toString status ++ ": " ++ text) := by
  unfold IndexTs.mochiFetchHandle
  rw [if_pos h]

/-- 2xx upstream statuses with an empty body make `mochiFetch`
resolve to `null`. -/
theorem indexHandleEmptyOk (p : String → Except String JsVal) (status : Nat)
    (h1 : 200 ≤ status) (h2 : status < 300) :
    IndexTs.mochiFetchHandle p status "" = .ok .null := by
  unfold IndexTs.mochiFetchHandle
  rw [if_neg (by omega)]
  rfl

/-- A POST to the root path runs the dispatcher and wraps its outcome. -/
theorem indexFetchPost (env : WorkerEnv) (u : UpstreamRequest → Nat × String)
    (p : String → Except String JsVal) (payload : JsVal) :
    IndexTs.fetch env u p "POST" "/" (.ok payload) =
      respond (IndexTs.handleInvocation env u p payload) := rfl

/-- Dispatching the `list_decks` payload runs `listDecks` against the
oracles and wraps the result. -/
theorem indexDispatchListDecks (env : WorkerEnv) (status : Nat) (text : String)
    (p : String → Except String JsVal) :
    IndexTs.handleInvocation env (fun _ => (status, text)) p listDecksPayload =
      wrapResult (IndexTs.mochiFetchHandle p status text,
        [IndexTs.mochiReq env "/decks" "GET" none]) := rfl

/-!
## C1
-/

/-- C1, code_bug evidence.  With the `MOCHI_API_KEY` binding absent
(`env = none`), a `callTool list_decks` invocation does not fail with
any `ConfigurationError`: it issues the upstream GET anyway, carrying
the interpolated header `Authorization: Bearer undefined`, and (for a
200/empty-body upstream) reports success.  No code path in `mochiFetch`
(either worker file) inspects whether the credential is present. -/
theorem c1_missing_credential_still_calls_upstream :
    IndexTs.fetch none upstream200 parseFail "POST" "/" (.ok listDecksPayload) =
      ({ status := 200,
         body := .json (.obj [("success", .bool true), ("data", .obj [("result", .null)])]) },
       [{ url := "https://api.mochi.cards/v1/decks", method := "GET",
          authorization := "Bearer undefined", contentType := "application/json",
          body := none }]) := rfl

/-!
## C2
-/

/-- C2: any non-2xx upstream response (status, body text) surfaced
through a simple-protocol tool call produces the envelope
`{success:false, error:"Mochi API <status>: <body>"}` on an outer HTTP
400 response, alongside the single upstream request that was issued. -/
theorem c2_upstream_error_becomes_simple_400 (env : WorkerEnv)
    (p : String → Except String JsVal) (status : Nat) (text : String)
    (h : status < 200 ∨ 300 ≤ status) :
    IndexTs.fetch env (fun _ => (status, text)) p "POST" "/" (.ok listDecksPayload) =
      ({ status := 400,
         body := .json (.obj [("success", .bool false),
           ("error", .str ("Mochi API " ++ toString status ++ ": " ++ text))]) },
       [IndexTs.mochiReq env "/decks" "GET" none]) := by
  rw [indexFetchPost, indexDispatchListDecks, indexHandleErr p status text h]
  rfl

/-- C2 witness: upstream HTTP 500 with body "server exploded" yields
`{success:false, error:"Mochi API 500: server exploded"}` with outer
status 400. -/
theorem c2_witness :
    IndexTs.fetch (some "k") (fun _ => (500, "server exploded")) parseFail "POST" "/"
      (.ok listDecksPayload) =
      ({ status := 400,
         body := .json (.obj [("success", .bool false),
           ("error", .str "Mochi API 500: server exploded")]) },
       [IndexTs.mochiReq (some "k") "/decks" "GET" none]) :=
  c2_upstream_error_becomes_simple_400 (some "k") parseFail 500 "server exploded" (by decide)

/-!
## C8
-/

/-- C8: a 2xx upstream response with an empty body resolves to a `null`
result — the tool call succeeds (outer 200, `result: null`), no error. -/
theorem c8_empty_2xx_body_is_null_result (env : WorkerEnv)
    (p : String → Except String JsVal) (status : Nat)
    (h1 : 200 ≤ status) (h2 : status < 300) :
    IndexTs.mochiFetchHandle p status "" = .ok .null ∧
    IndexTs.fetch env (fun _ => (status, "")) p "POST" "/" (.ok listDecksPayload) =
      ({ status := 200,
         body := .json (.obj [("success", .bool true), ("data", .obj [("result", .null)])]) },
       [IndexTs.mochiReq env "/decks" "GET" none]) := by
  refine ⟨indexHandleEmptyOk p status h1 h2, ?_⟩
  rw [indexFetchPost, indexDispatchListDecks, indexHandleEmptyOk p status h1 h2]
  rfl

/-- C8 witness at upstream status 200. -/
theorem c8_witness :
    IndexTs.mochiFetchHandle parseFail 200 "" = .ok .null ∧
    IndexTs.fetch (some "k") (fun _ => (200, "")) parseFail "POST" "/" (.ok listDecksPayload) =
      ({ status := 200,
         body := .json (.obj [("success", .bool true), ("data", .obj [("result", .null)])]) },
       [IndexTs.mochiReq (some "k") "/decks" "GET" none]) :=
  c8_empty_2xx_body_is_null_result (some "k") parseFail 200 (by decide) (by decide)

/-!
## C3
-/

/-- C3 counterexample.  In the bearer-auth worker variant
(`workers/mochi-mcp-worker.js`, first implementation), a `create_card`
invocation with `front` missing raises no validation error: it issues
the upstream POST anyway, with the missing field simply dropped from
the serialized body.  This refutes the claim as a statement about
every `createCard` handler in the repository. -/
theorem c3_counterexample :
    WorkerA.createCard (some "key") upstream200 parseFail
        (.obj [("deckId", .str "d1"), ("back", .str "b")]) =
      (.ok .null,
       [{ url := "https://api.mochi.cards/v1/decks/d1/cards", method := "POST",
          authorization := "Bearer key", contentType := "application/json",
          body := some "\x7b\"back\":\"b\",\"tags\":[]\x7d" }]) := rfl

/-- C3 amended: in the TypeScript implementation (`src/index.ts`),
`create_card` with a missing or non-string `front` or `back` throws
its validation error and issues no upstream request. -/
theorem c3_amended_index_validates_before_io (env : WorkerEnv)
    (u : UpstreamRequest → Nat × String) (p : String → Except String JsVal) (args : JsVal)
    (h : (getField args "front").isStr = false ∨ (getField args "back").isStr = false) :
    IndexTs.createCard env u p args =
      (.error "create_card requires deckId, front, and back strings", []) := by
  unfold IndexTs.createCard
  rcases h with h | h <;> simp [h]

/-- C3 witness: `create_card` with `front` absent is rejected with no
upstream call. -/
theorem c3_witness :
    IndexTs.createCard (some "key") upstream200 parseFail
        (.obj [("deckId", .str "d1"), ("back", .str "b")]) =
      (.error "create_card requires deckId, front, and back strings", []) :=
  c3_amended_index_validates_before_io (some "key") upstream200 parseFail
    (.obj [("deckId", .str "d1"), ("back", .str "b")]) (Or.inl rfl)

/-!
## C4
-/

/-- C4 counterexample.  In the bearer-auth worker variant, a
`list_cards` invocation with `deckId` missing and a non-numeric
(string) `page` raises no validation error and omits nothing: it
issues the upstream GET with the truthy `page` forwarded in the query
string and the missing `deckId` interpolated into the path as
`undefined`. -/
theorem c4_counterexample :
    WorkerA.listCards (some "key") upstream200 parseFail (.obj [("page", .str "2")]) =
      (.ok .null,
       [{ url := "https://api.mochi.cards/v1/decks/undefined/cards?page=2", method := "GET",
          authorization := "Bearer key", contentType := "application/json",
          body := none }]) := rfl

/-- C4 amended: in the TypeScript implementation (`src/index.ts`),
`list_cards` with a missing or non-string `deckId` fails validation
with no upstream call; and with a string `deckId` but non-number
`page` and `pageSize` values, the single upstream request carries no
query string at all — both parameters are omitted rather than causing
an error. -/
theorem c4_amended_index_list_cards (env : WorkerEnv)
    (u : UpstreamRequest → Nat × String) (p : String → Except String JsVal)
    (args : JsVal) (d : String) (v w : JsVal) :
    ((getField args "deckId").isStr = false →
      IndexTs.listCards env u p args = (.error "list_cards requires a string deckId", [])) ∧
    (v.isNum = false → w.isNum = false →
      (IndexTs.listCards env u p
        (.obj [("deckId", .str d), ("page", v), ("pageSize", w)])).2 =
        [IndexTs.mochiReq env ("/decks/" ++ d ++ "/cards") "GET" none]) := by
  constructor
  · intro h
    unfold IndexTs.listCards
    simp [h]
  · intro hv hw
    have step : IndexTs.listCards env u p
        (.obj [("deckId", .str d), ("page", v), ("pageSize", w)]) =
        (let params :=
          (if v.isNum then [("page", jsToString v)] else []) ++
          (if w.isNum then [("page_size", jsToString w)] else [])
         let query := formEncodeParams params
         let path := if query != "" then "/decks/" ++ d ++ "/cards?" ++ query
                     else "/decks/" ++ d ++ "/cards"
         IndexTs.mochiFetch env u p path "GET" none) := rfl
    rw [step]
    simp only [hv, hw]
    rfl

/-- C4 witness: a non-string `deckId` is rejected with no upstream
call, and string `page`/`pageSize` values are omitted from the
upstream query. -/
theorem c4_witness :
    IndexTs.listCards (some "key") upstream200 parseFail (.obj [("deckId", .num 7)]) =
      (.error "list_cards requires a string deckId", []) ∧
    (IndexTs.listCards (some "key") upstream200 parseFail
      (.obj [("deckId", .str "d1"), ("page", .str "2"), ("pageSize", .str "9")])).2 =
      [IndexTs.mochiReq (some "key") ("/decks/" ++ "d1" ++ "/cards") "GET" none] :=
  ⟨(c4_amended_index_list_cards (some "key") upstream200 parseFail
      (.obj [("deckId", .num 7)]) "d1" (.str "2") (.str "9")).1 rfl,
   (c4_amended_index_list_cards (some "key") upstream200 parseFail
      (.obj [("deckId", .num 7)]) "d1" (.str "2") (.str "9")).2 rfl rfl⟩

theorem strAppendEmptyMid (a b : String) : a ++ b ++ "" = a ++ b :=
  String.append_empty (a ++ b)

/-!
## C5
-/

/-- C5: with string `cardId` and `rating` arguments, the bearer variant
(which assumes the upstream supports reviews, `src/index.ts`) forwards
exactly the body `\x7b"rating": <rating>\x7d` in a POST to
`/cards/<cardId>/reviews`; the Basic-auth variant (whose upstream has
no reviews endpoint) fails with its not-available error and issues
zero upstream calls. -/
theorem c5_record_review_roundtrip (env : WorkerEnv)
    (u : UpstreamRequest → Nat × String) (p : String → Except String JsVal)
    (cardId rating : String) :
    (IndexTs.recordReview env u p
      (.obj [("cardId", .str cardId), ("rating", .str rating)])).2 =
      [IndexTs.mochiReq env ("/cards/" ++ cardId ++ "/reviews") "POST"
        (some ("\x7b\"rating\":" ++ jsonQuote rating ++ "\x7d"))] ∧
    WorkerB.recordReview env u p
      (.obj [("cardId", .str cardId), ("rating", .str rating)]) =
      (.error "Review recording is not available in the Mochi API. This feature may require app-level interaction.",
       []) := by
  constructor
  · have hbody : jsonStringify (.obj [("rating", .str rating)]) =
        "\x7b\"rating\":" ++ jsonQuote rating ++ "\x7d" := by
      show "\x7b" ++ ("\"rating\":" ++ jsonQuote rating ++ "") ++ "\x7d" =
        "\x7b\"rating\":" ++ jsonQuote rating ++ "\x7d"
      rw [strAppendEmptyMid]
      rw [← strAppendAssoc "\x7b" "\"rating\":" (jsonQuote rating)]
      rfl
    have step : (IndexTs.recordReview env u p
        (.obj [("cardId", .str cardId), ("rating", .str rating)])).2 =
        [IndexTs.mochiReq env ("/cards/" ++ cardId ++ "/reviews") "POST"
          (some (jsonStringify (.obj [("rating", .str rating)])))] := rfl
    rw [step, hbody]
  · rfl

/-!
## C6
-/

/-- Dispatching a top-level method other than `listTools`/`callTool`
falls through the `switch` to `Unsupported method: <m>` with no
upstream call. -/
theorem indexDispatchUnknownMethod (env : WorkerEnv) (u : UpstreamRequest → Nat × String)
    (p : String → Except String JsVal) (m : String)
    (h1 : m ≠ "listTools") (h2 : m ≠ "callTool") :
    IndexTs.handleInvocation env u p (.obj [("method", .str m)]) =
      (.error ("Unsupported method: " ++ m), []) := by
  have step : IndexTs.handleInvocation env u p (.obj [("method", .str m)]) =
      (if m == "listTools" then
        ((.ok (.obj [("tools", toolsJson)]) : Except String JsVal), ([] : List UpstreamRequest))
       else if m == "callTool" then (.error destructureParamsMsg, [])
       else (.error ("Unsupported method: " ++ m), [])) := rfl
  rw [step, if_neg (by simp [h1]), if_neg (by simp [h2])]

/-- Dispatching `callTool` with a truthy tool name matching none of the
four registered tools falls through the inner `switch` to
`Unknown tool: <n>` with no upstream call. -/
theorem indexDispatchUnknownTool (env : WorkerEnv) (u : UpstreamRequest → Nat × String)
    (p : String → Except String JsVal) (n : String) (h0 : n ≠ "")
    (h1 : n ≠ "list_decks") (h2 : n ≠ "list_cards")
    (h3 : n ≠ "create_card") (h4 : n ≠ "record_review") :
    IndexTs.handleInvocation env u p
        (.obj [("method", .str "callTool"), ("params", .obj [("name", .str n)])]) =
      (.error ("Unknown tool: " ++ n), []) := by
  have step : IndexTs.handleInvocation env u p
      (.obj [("method", .str "callTool"), ("params", .obj [("name", .str n)])]) =
      (if !(n != "") then
        ((.error "Tool invocation missing name" : Except String JsVal), ([] : List UpstreamRequest))
       else if n == "list_decks" then wrapResult (IndexTs.listDecks env u p)
       else if n == "list_cards" then wrapResult (IndexTs.listCards env u p (.obj []))
       else if n == "create_card" then wrapResult (IndexTs.createCard env u p (.obj []))
       else if n == "record_review" then wrapResult (IndexTs.recordReview env u p (.obj []))
       else (.error ("Unknown tool: " ++ n), [])) := rfl
  rw [step, if_neg (by simp [h0]), if_neg (by simp [h1]), if_neg (by simp [h2]),
    if_neg (by simp [h3]), if_neg (by simp [h4])]

/-- C6 counterexample.  A simple-protocol POST with top-level method
`describe` (neither `listTools` nor `callTool`) is answered with HTTP
status 400 — not the claimed 404 — carrying the
`Unsupported method: describe` classification. -/
theorem c6_counterexample :
    (IndexTs.fetch (some "k") upstream200 parseFail "POST" "/"
      (.ok (.obj [("method", .str "describe")]))).1 =
      { status := 400,
        body := .json (.obj [("success", .bool false),
          ("error", .str "Unsupported method: describe")]) } ∧
    (IndexTs.fetch (some "k") upstream200 parseFail "POST" "/"
      (.ok (.obj [("method", .str "describe")]))).1.status ≠ 404 :=
  ⟨rfl, by decide⟩

/-- C6 amended: an unrecognized top-level method yields the
`Unsupported method: <m>` classification with HTTP status 400 (the
code uses its generic error path, not 404); it is distinct by message
from the unknown-tool classification `Unknown tool: <n>`, which
applies only inside `callTool` and carries the same HTTP status
400.  Neither path issues an upstream call. -/
theorem c6_amended_unknown_method_is_400 (env : WorkerEnv)
    (u : UpstreamRequest → Nat × String) (p : String → Except String JsVal)
    (m n : String) (hm1 : m ≠ "listTools") (hm2 : m ≠ "callTool") (hn0 : n ≠ "")
    (hn1 : n ≠ "list_decks") (hn2 : n ≠ "list_cards")
    (hn3 : n ≠ "create_card") (hn4 : n ≠ "record_review") :
    IndexTs.fetch env u p "POST" "/" (.ok (.obj [("method", .str m)])) =
      ({ status := 400,
         body := .json (.obj [("success", .bool false),
           ("error", .str ("Unsupported method: " ++ m))]) }, []) ∧
    IndexTs.fetch env u p "POST" "/"
        (.ok (.obj [("method", .str "callTool"), ("params", .obj [("name", .str n)])])) =
      ({ status := 400,
         body := .json (.obj [("success", .bool false),
           ("error", .str ("Unknown tool: " ++ n))]) }, []) := by
  constructor
  · rw [indexFetchPost, indexDispatchUnknownMethod env u p m hm1 hm2]
    rfl
  · rw [indexFetchPost, indexDispatchUnknownTool env u p n hn0 hn1 hn2 hn3 hn4]
    rfl

/-- C6 witness: method `describe` and tool `foo`. -/
theorem c6_witness :
    IndexTs.fetch (some "k") upstream200 parseFail "POST" "/"
        (.ok (.obj [("method", .str "describe")])) =
      ({ status := 400,
         body := .json (.obj [("success", .bool false),
           ("error", .str "Unsupported method: describe")]) }, []) ∧
    IndexTs.fetch (some "k") upstream200 parseFail "POST" "/"
        (.ok (.obj [("method", .str "callTool"), ("params", .obj [("name", .str "foo")])])) =
      ({ status := 400,
         body := .json (.obj [("success", .bool false),
           ("error", .str "Unknown tool: foo")]) }, []) :=
  c6_amended_unknown_method_is_400 (some "k") upstream200 parseFail "describe" "foo"
    (by decide) (by decide) (by decide) (by decide) (by decide) (by decide) (by decide)

/-!
## C7
-/

/-- A `create_card` argument bag given identically to both worker
variants. -/
def c7Args : JsVal :=
  .obj [("deckId", .str "d1"), ("front", .str "Q"), ("back", .str "A"),
        ("tags", .arr [.str "t1"])]

/-- The upstream request the bearer-auth variant builds for `c7Args`. -/
def c7ReqA : UpstreamRequest :=
  { url := "https://api.mochi.cards/v1/decks/d1/cards", method := "POST",
    authorization := "Bearer key", contentType := "application/json",
    body := some "\x7b\"front\":\"Q\",\"back\":\"A\",\"tags\":[\"t1\"]\x7d" }

/-- The upstream request the Basic-auth variant builds for `c7Args`. -/
def c7ReqB : UpstreamRequest :=
  { url := "https://app.mochi.cards/api/cards", method := "POST",
    authorization := "Basic a2V5Og==", contentType := "application/json",
    body := some "\x7b\"content\":\"Q\\n\\n---\\n\\nA\",\"deck-id\":\"d1\",\"manual-tags\":[\"t1\"]\x7d" }

/-- C7: on the identical `create_card` invocation (same deckId, front,
back, tags, same credential), the two worker implementations construct
different upstream requests: the Authorization scheme (`Bearer key` vs
`Basic a2V5Og==`), the URL, and the body field names all differ. -/
theorem c7_worker_variants_not_equivalent :
    (WorkerA.createCard (some "key") upstream200 parseFail c7Args).2 = [c7ReqA] ∧
    (WorkerB.createCard (some "key") upstream200 parseFail c7Args).2 = [c7ReqB] ∧
    c7ReqA.authorization ≠ c7ReqB.authorization ∧
    c7ReqA.url ≠ c7ReqB.url ∧
    c7ReqA.body ≠ c7ReqB.body :=
  ⟨rfl, rfl, by decide, by decide, by decide⟩

/-!
## C9
-/

/-- C9: for POST requests, the entry points of `src/index.ts` and of
the bearer-auth worker variant ignore the URL path entirely (once it
is not the discovery path): any two such paths — `/mcp` included — are
handled identically, through the single simple-protocol
`method`/`params` envelope; no path-specific JSON-RPC handling
exists. -/
theorem c9_post_path_irrelevant (env : WorkerEnv) (u : UpstreamRequest → Nat × String)
    (p : String → Except String JsVal) (p1 p2 : String) (b : Except String JsVal)
    (h1 : p1 ≠ "/.well-known/mcp.json") (h2 : p2 ≠ "/.well-known/mcp.json") :
    IndexTs.fetch env u p "POST" p1 b = IndexTs.fetch env u p "POST" p2 b ∧
    WorkerA.fetch env u p "POST" p1 b = WorkerA.fetch env u p "POST" p2 b := by
  constructor
  · unfold IndexTs.fetch
    rw [if_neg h1, if_neg h2]
  · unfold WorkerA.fetch
    rw [if_neg h1, if_neg h2]

/-- C9 witness: a POST to `/mcp` is handled exactly like a POST to
`/`. -/
theorem c9_witness :
    IndexTs.fetch (some "k") upstream200 parseFail "POST" "/mcp" (.ok listDecksPayload) =
      IndexTs.fetch (some "k") upstream200 parseFail "POST" "/" (.ok listDecksPayload) ∧
    WorkerA.fetch (some "k") upstream200 parseFail "POST" "/mcp" (.ok listDecksPayload) =
      WorkerA.fetch (some "k") upstream200 parseFail "POST" "/" (.ok listDecksPayload) :=
  c9_post_path_irrelevant (some "k") upstream200 parseFail "/mcp" "/" (.ok listDecksPayload)
    (by decide) (by decide)

/-!
## C10
-/

/-- C10: the manifest served at the discovery path always reports
`auth.type = "bearer"` (the manifest ignores the environment), even in
the Basic-auth worker variant, whose upstream client actually attaches
an HTTP Basic Authorization header built from that same credential. -/
theorem c10_manifest_reports_bearer_despite_basic_auth (env : WorkerEnv)
    (path method : String) (body : Option String) :
    getField (getField (WorkerB.manifest env) "auth") "type" = .str "bearer" ∧
    (WorkerB.mochiReq env path method body).authorization =
      "Basic " ++ btoa (envKeyStr env ++ ":") :=
  ⟨rfl, rfl⟩
